import Mathlib

/-!
Verification of the report-text extraction engine of the
netgear-financial-monitor repository against its design specification.

The engine lives in two Python scripts:
  scripts/enhanced_pdf_extractor.py      (class EnhancedPDFExtractor)
  scripts/pdf_financial_data_extractor.py (class PDFFinancialDataExtractor)

The shallow embedding below models the Python `re` usage with a small
backtracking matcher over lists of characters.  Every concrete pattern the
scripts compile is transcribed into a `RE` syntax tree next to the literal
pattern string, so each definition can be diffed against its source line.
All regex searches in the scripts use `re.IGNORECASE`, so the matcher
compares characters case-insensitively throughout; patterns compiled with
`re.DOTALL` use the dot-matches-newline class, the others use the
newline-excluding class.  Python floats are modelled as rationals: every
number the engine parses is a short decimal literal, and the only
arithmetic performed on them (scaling by one million, one division for the
percentage, interval checks) is exact at these magnitudes.
-/

set_option maxRecDepth 100000

namespace NetgearMonitor

/-- Syntax of the regular expressions used by the two extractor scripts:
literal characters, character classes, sequencing, alternation, greedy and
lazy repetition, optional parts, numbered capture groups, positive
lookahead and the end-of-text anchor. -/
inductive RE where
  | eps : RE
  | lit : Char → RE
  | cls : (Char → Bool) → RE
  | seq : RE → RE → RE
  | alt : RE → RE → RE
  | starG : RE → RE
  | starL : RE → RE
  | optG : RE → RE
  | group : Nat → RE → RE
  | look : RE → RE
  | eol : RE

/-- A capture list: group number with absolute start and end offsets. -/
abbrev Caps := List (Nat × Nat × Nat)

/-- Backtracking matcher in continuation-passing style.  `rest` is the
unread suffix of the text, `pos` its absolute offset.  Alternatives are
tried left to right, greedy repetition prefers more iterations, lazy
repetition fewer; this reproduces the preference order of Python `re`.
The fuel argument bounds the recursion depth and is chosen large enough
for every pattern in the scripts (each repetition body consumes at least
one character). -/
def mrun (fuel : Nat) (r : RE) (rest : List Char) (pos : Nat) (caps : Caps)
    (k : List Char → Nat → Caps → Option (Nat × Caps)) : Option (Nat × Caps) :=
  match fuel with
  | 0 => none
  | fuel + 1 =>
    match r with
    | .eps => k rest pos caps
    | .lit c =>
      match rest with
      | [] => none
      | x :: xs => if x.toLower = c.toLower then k xs (pos + 1) caps else none
    | .cls p =>
      match rest with
      | [] => none
      | x :: xs => if p x then k xs (pos + 1) caps else none
    | .seq a b =>
      mrun fuel a rest pos caps (fun r1 p1 c1 => mrun fuel b r1 p1 c1 k)
    | .alt a b =>
      (mrun fuel a rest pos caps k).orElse (fun _ => mrun fuel b rest pos caps k)
    | .starG a =>
      (mrun fuel a rest pos caps (fun r1 p1 c1 =>
        if pos < p1 then mrun fuel (.starG a) r1 p1 c1 k else none)).orElse
        (fun _ => k rest pos caps)
    | .starL a =>
      (k rest pos caps).orElse (fun _ =>
        mrun fuel a rest pos caps (fun r1 p1 c1 =>
          if pos < p1 then mrun fuel (.starL a) r1 p1 c1 k else none))
    | .optG a =>
      (mrun fuel a rest pos caps k).orElse (fun _ => k rest pos caps)
    | .group n a =>
      mrun fuel a rest pos caps (fun r1 p1 c1 => k r1 p1 ((n, pos, p1) :: c1))
    | .look a =>
      match mrun fuel a rest pos caps (fun _ p1 c1 => some (p1, c1)) with
      | some _ => k rest pos caps
      | none => none
    | .eol =>
      match rest with
      | [] => k rest pos caps
      | [c] => if c = '\n' then k rest pos caps else none
      | _ => none

/-- Result of a successful search: start and end offset of the whole match
and the capture list. -/
structure MatchRes where
  s : Nat
  e : Nat
  caps : Caps
deriving DecidableEq, Repr

/-- Try to match `r` at offset `pos`; on success return end offset and
captures of the first (preference-ordered) match. -/
def matchAt (fuel : Nat) (r : RE) (rest : List Char) (pos : Nat) :
    Option (Nat × Caps) :=
  mrun fuel r rest pos [] (fun _ p c => some (p, c))

/-- Scan for the leftmost match, like `re.search`: try every start offset
from left to right. -/
def searchFromCL (fuel : Nat) (r : RE) : List Char → Nat → Option MatchRes
  | rest, pos =>
    match matchAt fuel r rest pos with
    | some (e, caps) => some ⟨pos, e, caps⟩
    | none =>
      match rest with
      | [] => none
      | _ :: xs => searchFromCL fuel r xs (pos + 1)

/-- Depth budget for the matcher on a text of length `n`.  The deepest
call path of any script pattern is below `1000` frames per consumed
character. -/
def reFuel (n : Nat) : Nat := (n + 2) * 1000

/-- Python `re.search pattern text`: leftmost match of `r` in `t`. -/
def searchCL (r : RE) (t : List Char) : Option MatchRes :=
  searchFromCL (reFuel t.length) r t 0

/-- Shift every offset of a match by `off` (used to report matches found
in a suffix at their absolute position). -/
def shiftMatch (off : Nat) (m : MatchRes) : MatchRes :=
  ⟨m.s + off, m.e + off, m.caps.map (fun c => (c.1, c.2.1 + off, c.2.2 + off))⟩

/-- Worker for `findAll`: repeatedly search the remaining suffix, emitting
matches at absolute offsets, continuing after each match (non-overlapping,
like `re.finditer`). -/
def findAllAux (r : RE) : Nat → List Char → Nat → List MatchRes
  | 0, _, _ => []
  | n + 1, rest, off =>
    match searchFromCL (reFuel rest.length) r rest 0 with
    | none => []
    | some m =>
      let adv := if m.s < m.e then m.e else m.s + 1
      shiftMatch off m :: findAllAux r n (rest.drop adv) (off + adv)

/-- Python `re.finditer pattern text`: all non-overlapping matches from the left. -/
def findAll (r : RE) (t : List Char) : List MatchRes :=
  findAllAux r (t.length + 1) t 0

/-- Look up the most recent capture of group `n` (Python keeps the last
capture of a repeated group). -/
def capLookup : Caps → Nat → Option (Nat × Nat)
  | [], _ => none
  | (m, a, b) :: rest, n => if m = n then some (a, b) else capLookup rest n

/-- Slice `t[a:b]` as in Python. -/
def sliceL (t : List Char) (a b : Nat) : List Char := (t.drop a).take (b - a)

/-- The text captured by group `n` of match `m` inside text `t`. -/
def groupStrM (t : List Char) (m : MatchRes) (n : Nat) : Option (List Char) :=
  (capLookup m.caps n).map (fun p => sliceL t p.1 p.2)

/-- Character classes used by the patterns.  `\s` of Python `re` (ASCII). -/
def isPySpace (c : Char) : Bool :=
  c = ' ' || c = '\t' || c = '\n' || c = '\r' || c = '\x0B' || c = '\x0C'

/-- The class `[\d,]`. -/
def isDigitComma (c : Char) : Bool := c.isDigit || c = ','

/-- The class `[1-4]`. -/
def isOneToFour (c : Char) : Bool := '1' ≤ c && c ≤ '4'

/-- Pattern `.` without `re.DOTALL`: any character except newline. -/
def notNL (c : Char) : Bool := c ≠ '\n'

/-- Pattern `.` with `re.DOTALL`: any character. -/
def anyCh (_ : Char) : Bool := true

/-- Pattern `+` (greedy) as one copy followed by a greedy star. -/
def rePlus (r : RE) : RE := .seq r (.starG r)

/-- A sequence of literal characters (matched case-insensitively, since
every pattern in the scripts is compiled with `re.IGNORECASE`). -/
def reOfChars : List Char → RE
  | [] => .eps
  | c :: cs => .seq (.lit c) (reOfChars cs)

/-- Literal string piece of a pattern. -/
def reStr (s : String) : RE := reOfChars s.data

/-- Right-nested sequence of pattern pieces. -/
def reSeqs : List RE → RE
  | [] => .eps
  | [r] => r
  | r :: rs => .seq r (reSeqs rs)

/-- Left-preferring alternation of pattern pieces. -/
def reAlts : List RE → RE
  | [] => .eps
  | [r] => r
  | r :: rs => .alt r (reAlts rs)

/-- Pattern `\s+`. -/
def reWS : RE := rePlus (.cls isPySpace)

/-- Pattern `\s*`. -/
def reWSstar : RE := .starG (.cls isPySpace)

/-- Pattern `.*?` without DOTALL. -/
def lazyAnyN : RE := .starL (.cls notNL)

/-- Pattern `.*?` with DOTALL. -/
def lazyAnyD : RE := .starL (.cls anyCh)

/-- Pattern `([\d,]+\.?\d*)` — the number capture used throughout the scripts. -/
def numGroup : RE :=
  .group 1 (.seq (rePlus (.cls isDigitComma))
    (.seq (.optG (.lit '.')) (.starG (.cls Char.isDigit))))

/-- Pattern `([\+\-]?[\d,]+\.?\d*)` — signed number capture of the legacy
document-level growth patterns. -/
def signedNumGroup : RE :=
  .group 1 (.seq (.optG (.cls (fun c => c = '+' || c = '-')))
    (.seq (rePlus (.cls isDigitComma))
      (.seq (.optG (.lit '.')) (.starG (.cls Char.isDigit)))))

/-- Pattern `[\$]?`. -/
def dollarOpt : RE := .optG (.lit '$')

/-- Pattern `(?:%|\s*percent)`. -/
def pctOrPercent : RE := .alt (.lit '%') (.seq reWSstar (reStr "percent"))

/-- Pattern `\d{4}`. -/
def digits4 : RE :=
  reSeqs [.cls Char.isDigit, .cls Char.isDigit, .cls Char.isDigit, .cls Char.isDigit]

/-- Does `p` occur as a contiguous substring at the head of `t`? -/
def headMatches : List Char → List Char → Bool
  | [], _ => true
  | _ :: _, [] => false
  | p :: ps, t :: ts => p = t && headMatches ps ts

/-- Python `sub in s` on character lists (case-sensitive). -/
def containsSub (p : List Char) : List Char → Bool
  | [] => headMatches p []
  | c :: cs => headMatches p (c :: cs) || containsSub p cs

/-- Lowercase a character list, `str.lower()`. -/
def toLowerL (cs : List Char) : List Char := cs.map Char.toLower

/-- Python `str.replace(",", "")`. -/
def stripCommas (cs : List Char) : List Char := cs.filter (fun c => c != ',')

/-- Numeric value of a digit string. -/
def natOfDigits (cs : List Char) : Nat :=
  cs.foldl (fun n c => n * 10 + (c.toNat - '0'.toNat)) 0

/-- Exact value of a Python float as a fraction.  Every number the two
scripts handle is a short decimal literal, and every operation they apply
(scaling by one million, negation, one division, sums, interval tests) is
exact at these magnitudes, so fractions model the float values faithfully.
The fraction is kept unnormalized; `den` is positive for every value the
embedding constructs. -/
structure PyNum where
  num : Int
  den : Nat
deriving DecidableEq, Repr

namespace PyNum

/-- Embed an integer literal. -/
def ofInt (n : Int) : PyNum := ⟨n, 1⟩

/-- The rational value of a fraction. -/
def toRat (a : PyNum) : ℚ := (a.num : ℚ) / (a.den : ℚ)

/-- Exact addition. -/
def add (a b : PyNum) : PyNum := ⟨a.num * b.den + b.num * a.den, a.den * b.den⟩

/-- Exact multiplication. -/
def mul (a b : PyNum) : PyNum := ⟨a.num * b.num, a.den * b.den⟩

/-- Negation. -/
def neg (a : PyNum) : PyNum := ⟨-a.num, a.den⟩

/-- Exact division (the scripts only divide by values checked to be
positive). -/
def div (a b : PyNum) : PyNum :=
  if b.num < 0 then ⟨-(a.num * b.den), a.den * b.num.natAbs⟩
  else ⟨a.num * b.den, a.den * b.num.natAbs⟩

/-- Comparison by cross-multiplication (sound because denominators are
positive). -/
def leB (a b : PyNum) : Bool := a.num * b.den ≤ b.num * a.den

/-- Strict comparison by cross-multiplication. -/
def ltB (a b : PyNum) : Bool := a.num * b.den < b.num * a.den

/-- Python `int(x)`: truncation toward zero. -/
def pyInt (a : PyNum) : Int := a.num.tdiv a.den

/-- Well-formedness: the denominator is positive. -/
def WF (a : PyNum) : Prop := 0 < a.den

end PyNum

/-- Python `float` restricted to the strings the number captures can
produce after comma removal: an optional integer part, an optional dot,
an optional fractional part, with at least one digit overall.  Returns
`none` exactly when Python raises `ValueError` (empty string or a bare
dot). -/
def parseDecimal (cs : List Char) : Option PyNum :=
  let ip := cs.takeWhile (fun c => c != '.')
  let rest := cs.dropWhile (fun c => c != '.')
  let fp := match rest with
    | [] => ([] : List Char)
    | _ :: xs => xs
  if ip.all Char.isDigit && fp.all Char.isDigit && (!ip.isEmpty || !fp.isEmpty) then
    some ⟨natOfDigits ip * 10 ^ fp.length + natOfDigits fp, 10 ^ fp.length⟩
  else none

/-- Python `float` on a possibly sign-prefixed decimal string. -/
def parseDecimalSigned (cs : List Char) : Option PyNum :=
  match cs with
  | '+' :: rest => parseDecimal rest
  | '-' :: rest => (parseDecimal rest).map PyNum.neg
  | _ => parseDecimal cs

/-- Python `float(match.group(1).replace(",", ""))` for a match in text `t`,
`none` when the group is missing or the float conversion raises. -/
def valFromMatch (t : List Char) (m : MatchRes) : Option PyNum :=
  match groupStrM t m 1 with
  | none => none
  | some s => parseDecimal (stripCommas s)

/-- The constant one million, the `million` scale factor. -/
def oneMillion : PyNum := PyNum.ofInt 1000000

/-! ### Period Resolver — `EnhancedPDFExtractor.parse_period_from_filename`
(`scripts/enhanced_pdf_extractor.py` lines 91-136).  The four pattern
source strings are kept verbatim because the code branches on the Python
substring test `'Full Year' in pattern`. -/

/-- Pattern string 1 of the enhanced period resolver. -/
def ps1 : String := "(First|Second|Third|Fourth)\\s+Quarter\\s+(\\d{4})"

/-- Pattern string 2 of the enhanced period resolver. -/
def ps2 : String := "Fourth\\s+Quarter\\s+and\\s+Full\\s+Year\\s+(\\d{4})"

/-- Pattern string 3 of the enhanced period resolver. -/
def ps3 : String := "Q([1-4])\\s+(\\d{4})"

/-- Pattern string 4 of the enhanced period resolver. -/
def ps4 : String := "Quarter\\s+([1-4])\\s+(\\d{4})"

/-- Pattern `(First|Second|Third|Fourth)\s+Quarter\s+(\d{4})`. -/
def p1re : RE :=
  reSeqs [.group 1 (reAlts [reStr "First", reStr "Second", reStr "Third", reStr "Fourth"]),
    reWS, reStr "Quarter", reWS, .group 2 digits4]

/-- Pattern `Fourth\s+Quarter\s+and\s+Full\s+Year\s+(\d{4})`. -/
def p2re : RE :=
  reSeqs [reStr "Fourth", reWS, reStr "Quarter", reWS, reStr "and", reWS,
    reStr "Full", reWS, reStr "Year", reWS, .group 1 digits4]

/-- Pattern `Q([1-4])\s+(\d{4})`. -/
def p3re : RE :=
  reSeqs [.lit 'Q', .group 1 (.cls isOneToFour), reWS, .group 2 digits4]

/-- Pattern `Quarter\s+([1-4])\s+(\d{4})`. -/
def p4re : RE :=
  reSeqs [reStr "Quarter", reWS, .group 1 (.cls isOneToFour), reWS, .group 2 digits4]

/-- The ordered pattern list of the enhanced resolver, each with its
source string. -/
def enhancedPeriodPatterns : List (String × RE) :=
  [(ps1, p1re), (ps2, p2re), (ps3, p3re), (ps4, p4re)]

/-- The dictionary returned by the enhanced period resolver. -/
structure PeriodInfo where
  fiscal_year : Nat
  fiscal_quarter : Nat
  period : String
  is_full_year : Bool
deriving DecidableEq, Repr

/-- Python `quarter_map.get(quarter_name, 0)` — keys are the exact-case ordinal
words and the digit strings. -/
def quarterMapGet (s : List Char) : Nat :=
  if s = "First".data then 1
  else if s = "Second".data then 2
  else if s = "Third".data then 3
  else if s = "Fourth".data then 4
  else if s = "1".data then 1
  else if s = "2".data then 2
  else if s = "3".data then 3
  else if s = "4".data then 4
  else 0

/-- One iteration of the resolver loop per pattern.  `Except.error ()`
models the uncaught `IndexError` Python raises when `match.group(2)` is
requested from a pattern with a single group (for these patterns a group
exists exactly when it captured). -/
def parsePeriodLoop (fn : List Char) : List (String × RE) → Except Unit (Option PeriodInfo)
  | [] => .ok none
  | (pstr, pre) :: rest =>
    match searchCL pre fn with
    | none => parsePeriodLoop fn rest
    | some m =>
      if containsSub "Full Year".data pstr.data then
        match groupStrM fn m 1 with
        | none => .error ()
        | some ys =>
          let year := natOfDigits ys
          .ok (some ⟨year, 4, "Q4-" ++ toString year, true⟩)
      else
        match groupStrM fn m 1 with
        | none => .error ()
        | some qn =>
          match groupStrM fn m 2 with
          | none => .error ()
          | some ys =>
            let year := natOfDigits ys
            let quarter := quarterMapGet qn
            if 0 < quarter then
              .ok (some ⟨year, quarter,
                "Q" ++ toString quarter ++ "-" ++ toString year, false⟩)
            else parsePeriodLoop fn rest

/-- Python `EnhancedPDFExtractor.parse_period_from_filename`. -/
def parse_period_from_filename (filename : String) : Except Unit (Option PeriodInfo) :=
  parsePeriodLoop filename.data enhancedPeriodPatterns

/-! ### Context Analyzer — `EnhancedPDFExtractor.get_segment_context`,
`extract_growth_rate_from_context`, `extract_margin_from_context`
(`scripts/enhanced_pdf_extractor.py` lines 284-340). -/

/-- Python `get_segment_context`: `text[max(0, start_pos - 500) : min(len(text), end_pos + 500)]`.
The `segment_name` argument is accepted and ignored, as in the source. -/
def get_segment_context (text : String) (segment_name : String) (start_pos end_pos : Nat) : String :=
  let _ := segment_name
  ⟨sliceL text.data (start_pos - 500) (min text.data.length (end_pos + 500))⟩

/-- Pattern `(?:increased|grew).*?by\s+([\d,]+\.?\d*)(?:%|\s*percent)`. -/
def g1re : RE :=
  reSeqs [.alt (reStr "increased") (reStr "grew"), lazyAnyN, reStr "by", reWS,
    numGroup, pctOrPercent]

/-- Pattern `(?:decreased|declined).*?by\s+([\d,]+\.?\d*)(?:%|\s*percent)`. -/
def g2re : RE :=
  reSeqs [.alt (reStr "decreased") (reStr "declined"), lazyAnyN, reStr "by", reWS,
    numGroup, pctOrPercent]

/-- Pattern `([\d,]+\.?\d*)%.*?(?:increase|growth|higher)`. -/
def g3re : RE :=
  reSeqs [numGroup, .lit '%', lazyAnyN,
    reAlts [reStr "increase", reStr "growth", reStr "higher"]]

/-- Pattern `([\d,]+\.?\d*)%.*?(?:decrease|decline|lower)`. -/
def g4re : RE :=
  reSeqs [numGroup, .lit '%', lazyAnyN,
    reAlts [reStr "decrease", reStr "decline", reStr "lower"]]

/-- Pattern `(?:\+|\-)([\d,]+\.?\d*)%`. -/
def g5re : RE := reSeqs [.alt (.lit '+') (.lit '-'), numGroup, .lit '%']

/-- The ordered growth-rate pattern list. -/
def growthPatterns : List RE := [g1re, g2re, g3re, g4re, g5re]

/-- The polarity keyword test:
`'decreased' in context.lower() or 'declined' in context.lower() or 'lower' in context.lower()`. -/
def growthKeywordNeg (ctx : List Char) : Bool :=
  containsSub "decreased".data (toLowerL ctx) ||
  containsSub "declined".data (toLowerL ctx) ||
  containsSub "lower".data (toLowerL ctx)

/-- Python `match.group(0).startswith('-')`: the whole match begins with a minus. -/
def matchStartsDash (ctx : List Char) (m : MatchRes) : Bool :=
  match (ctx.drop m.s).head? with
  | some c => c = '-'
  | none => false

/-- Polarity resolution of `extract_growth_rate_from_context`. -/
def applyGrowthSign (ctx : List Char) (m : MatchRes) (v : PyNum) : PyNum :=
  if growthKeywordNeg ctx then v.neg
  else if matchStartsDash ctx m then v.neg
  else v

/-- The growth-rate plausibility band `-50 <= growth <= 100`. -/
def growthInRange (g : PyNum) : Bool :=
  PyNum.leB (PyNum.ofInt (-50)) g && PyNum.leB g (PyNum.ofInt 100)

/-- Loop of `extract_growth_rate_from_context`: first pattern whose first
match parses and whose signed value passes the `-50 ≤ g ≤ 100` range check
wins; a parse failure or an out-of-range value moves on to the next
pattern. -/
def extractGrowthLoop (ctx : List Char) : List RE → Option PyNum
  | [] => none
  | p :: ps =>
    match searchCL p ctx with
    | none => extractGrowthLoop ctx ps
    | some m =>
      match valFromMatch ctx m with
      | none => extractGrowthLoop ctx ps
      | some v =>
        let g := applyGrowthSign ctx m v
        if growthInRange g then some g else extractGrowthLoop ctx ps

/-- Python `EnhancedPDFExtractor.extract_growth_rate_from_context`. -/
def extract_growth_rate_from_context (context : String) : Option PyNum :=
  extractGrowthLoop context.data growthPatterns

/-- Pattern `gross margin.*?([\d,]+\.?\d*)(?:%|\s*percent)`. -/
def m1re : RE := reSeqs [reStr "gross margin", lazyAnyN, numGroup, pctOrPercent]

/-- Pattern `margin.*?([\d,]+\.?\d*)(?:%|\s*percent)`. -/
def m2re : RE := reSeqs [reStr "margin", lazyAnyN, numGroup, pctOrPercent]

/-- Pattern `([\d,]+\.?\d*)%.*?margin`. -/
def m3re : RE := reSeqs [numGroup, .lit '%', lazyAnyN, reStr "margin"]

/-- The ordered margin pattern list. -/
def marginPatterns : List RE := [m1re, m2re, m3re]

/-- The margin plausibility band `5 <= margin <= 60`. -/
def marginInRange (v : PyNum) : Bool :=
  PyNum.leB (PyNum.ofInt 5) v && PyNum.leB v (PyNum.ofInt 60)

/-- Loop of `extract_margin_from_context` with the `5 ≤ m ≤ 60` range
check. -/
def extractMarginLoop (ctx : List Char) : List RE → Option PyNum
  | [] => none
  | p :: ps =>
    match searchCL p ctx with
    | none => extractMarginLoop ctx ps
    | some m =>
      match valFromMatch ctx m with
      | none => extractMarginLoop ctx ps
      | some v => if marginInRange v then some v else extractMarginLoop ctx ps

/-- Python `EnhancedPDFExtractor.extract_margin_from_context`. -/
def extract_margin_from_context (context : String) : Option PyNum :=
  extractMarginLoop context.data marginPatterns

/-! ### Value Extractor for total revenue —
`EnhancedPDFExtractor.extract_total_revenue`
(`scripts/enhanced_pdf_extractor.py` lines 342-361). -/

/-- Pattern `Net revenues?\s+(?:of\s+|were\s+)?[\$]?([\d,]+\.?\d*)\s*million`. -/
def t1re : RE :=
  reSeqs [reStr "Net revenue", .optG (.lit 's'), reWS,
    .optG (.alt (.seq (reStr "of") reWS) (.seq (reStr "were") reWS)),
    dollarOpt, numGroup, reWSstar, reStr "million"]

/-- Pattern `Total\s+net\s+revenues?\s+[\$]?([\d,]+\.?\d*)\s*million`. -/
def t2re : RE :=
  reSeqs [reStr "Total", reWS, reStr "net", reWS, reStr "revenue", .optG (.lit 's'),
    reWS, dollarOpt, numGroup, reWSstar, reStr "million"]

/-- Pattern `revenues?\s+[\$]?([\d,]+\.?\d*)\s*million`. -/
def t3re : RE :=
  reSeqs [reStr "revenue", .optG (.lit 's'), reWS, dollarOpt, numGroup,
    reWSstar, reStr "million"]

/-- The ordered total-revenue pattern list. -/
def totalRevenuePatterns : List RE := [t1re, t2re, t3re]

/-- The total-revenue plausibility band `50M ≤ r ≤ 500M`. -/
def totalRevenueInRange (r : PyNum) : Bool :=
  PyNum.leB (PyNum.ofInt 50000000) r && PyNum.leB r (PyNum.ofInt 500000000)

/-- Loop of `extract_total_revenue`: first pattern whose first match
parses, scaled by one million, passing the `50M ≤ r ≤ 500M` band. -/
def extractTotalLoop (t : List Char) : List RE → Option PyNum
  | [] => none
  | p :: ps =>
    match searchCL p t with
    | none => extractTotalLoop t ps
    | some m =>
      match valFromMatch t m with
      | none => extractTotalLoop t ps
      | some v =>
        let r := v.mul oneMillion
        if totalRevenueInRange r then some r else extractTotalLoop t ps

/-- Python `EnhancedPDFExtractor.extract_total_revenue`. -/
def extract_total_revenue (text : String) : Option PyNum :=
  extractTotalLoop text.data totalRevenuePatterns

/-! ### Segmentation schemas — `EnhancedPDFExtractor.extract_segment_data_2025`,
`extract_segment_data_2024`, `extract_segment_data_2023`
(`scripts/enhanced_pdf_extractor.py` lines 138-282).  All segment patterns
are compiled with `re.IGNORECASE | re.DOTALL`. -/

/-- One extracted segment, before reconciliation. -/
structure SegmentX where
  category_name : String
  revenue : PyNum
  growth_rate : Option PyNum
  gross_margin : Option PyNum
deriving DecidableEq, Repr

/-- Pattern `revenues?\s+(?:of\s+)?[\$]?([\d,]+\.?\d*)\s*million` — the common
tail of most segment patterns. -/
def revOfTail : RE :=
  reSeqs [reStr "revenue", .optG (.lit 's'), reWS, .optG (.seq (reStr "of") reWS),
    dollarOpt, numGroup, reWSstar, reStr "million"]

/-- Pattern `NETGEAR for Business.*?revenues?\s+(?:of\s+)?[\$]?([\d,]+\.?\d*)\s*million`. -/
def sNFB1 : RE := reSeqs [reStr "NETGEAR for Business", lazyAnyD, revOfTail]

/-- Pattern `NFB.*?revenues?\s+(?:of\s+)?[\$]?([\d,]+\.?\d*)\s*million`. -/
def sNFB2 : RE := reSeqs [reStr "NFB", lazyAnyD, revOfTail]

/-- Pattern `Business.*?segment.*?[\$]?([\d,]+\.?\d*)\s*million`. -/
def sNFB3 : RE :=
  reSeqs [reStr "Business", lazyAnyD, reStr "segment", lazyAnyD, dollarOpt,
    numGroup, reWSstar, reStr "million"]

/-- Pattern `Home Networking.*?revenues?\s+(?:of\s+)?[\$]?([\d,]+\.?\d*)\s*million`. -/
def sHN1 : RE := reSeqs [reStr "Home Networking", lazyAnyD, revOfTail]

/-- Pattern `Home.*?networking.*?[\$]?([\d,]+\.?\d*)\s*million`. -/
def sHN2 : RE :=
  reSeqs [reStr "Home", lazyAnyD, reStr "networking", lazyAnyD, dollarOpt,
    numGroup, reWSstar, reStr "million"]

/-- Pattern `Mobile.*?revenues?\s+(?:of\s+)?[\$]?([\d,]+\.?\d*)\s*million`. -/
def sMob1 : RE := reSeqs [reStr "Mobile", lazyAnyD, revOfTail]

/-- Pattern `Mobile.*?segment.*?[\$]?([\d,]+\.?\d*)\s*million`. -/
def sMob2 : RE :=
  reSeqs [reStr "Mobile", lazyAnyD, reStr "segment", lazyAnyD, dollarOpt,
    numGroup, reWSstar, reStr "million"]

/-- Pattern `Connected Home.*?revenues?\s+(?:of\s+)?[\$]?([\d,]+\.?\d*)\s*million`. -/
def sCH1 : RE := reSeqs [reStr "Connected Home", lazyAnyD, revOfTail]

/-- Pattern `Consumer.*?revenues?\s+(?:of\s+)?[\$]?([\d,]+\.?\d*)\s*million`. -/
def sCons : RE := reSeqs [reStr "Consumer", lazyAnyD, revOfTail]

/-- Pattern `Business.*?revenues?\s+(?:of\s+)?[\$]?([\d,]+\.?\d*)\s*million`. -/
def sBus : RE := reSeqs [reStr "Business", lazyAnyD, revOfTail]

/-- Pattern `Business.*?segment.*?revenues?\s+(?:of\s+)?[\$]?([\d,]+\.?\d*)\s*million`
(2023 schema variant). -/
def sBusSeg23 : RE :=
  reSeqs [reStr "Business", lazyAnyD, reStr "segment", lazyAnyD, revOfTail]

/-- A per-era segment revenue band `lo ≤ r ≤ hi`. -/
def segmentInRange (lo hi : Int) (r : PyNum) : Bool :=
  PyNum.leB (PyNum.ofInt lo) r && PyNum.leB r (PyNum.ofInt hi)

/-- The `for match in matches` loop body shared by the three era
extractors: take the first match of one pattern that parses and whose
scaled revenue lies in the band, build the segment (with growth and margin
mined from the ±500-character context) and stop (`break`); a parse failure
or an out-of-band value moves to the next match. -/
def segFromMatches (t : List Char) (name : String) (lo hi : Int) :
    List MatchRes → Option SegmentX
  | [] => none
  | m :: ms =>
    match valFromMatch t m with
    | none => segFromMatches t name lo hi ms
    | some v =>
      let revenue := v.mul oneMillion
      if segmentInRange lo hi revenue then
        let ctx := get_segment_context ⟨t⟩ name m.s m.e
        some ⟨name, revenue, extract_growth_rate_from_context ctx,
          extract_margin_from_context ctx⟩
      else segFromMatches t name lo hi ms

/-- The `for pattern in patterns` loop of the era extractors.  The
source's `break` leaves only the inner match loop, so one segment can be
appended per pattern of the same category. -/
def segPerPatterns (t : List Char) (name : String) (lo hi : Int) :
    List RE → List SegmentX
  | [] => []
  | p :: ps =>
    match segFromMatches t name lo hi (findAll p t) with
    | some s => s :: segPerPatterns t name lo hi ps
    | none => segPerPatterns t name lo hi ps

/-- Python `EnhancedPDFExtractor.extract_segment_data_2025`: the three-category
schema with the 10M-200M per-segment band. -/
def extract_segment_data_2025 (text : String) : List SegmentX :=
  segPerPatterns text.data "NETGEAR for Business" 10000000 200000000 [sNFB1, sNFB2, sNFB3] ++
  segPerPatterns text.data "Home Networking" 10000000 200000000 [sHN1, sHN2] ++
  segPerPatterns text.data "Mobile" 10000000 200000000 [sMob1, sMob2]

/-- The two-category fallback block inside `extract_segment_data_2024`
(lines 200-237 of the script). -/
def extractSegments2024Fallback (text : String) : List SegmentX :=
  segPerPatterns text.data "Connected Home" 10000000 200000000 [sCH1, sCons] ++
  segPerPatterns text.data "NETGEAR for Business" 10000000 200000000 [sNFB1, sBus]

/-- Python `EnhancedPDFExtractor.extract_segment_data_2024`: try the
three-category schema first; keep it when it yields at least two
segments, otherwise run the legacy two-category block. -/
def extract_segment_data_2024 (text : String) : List SegmentX :=
  let three_segment_data := extract_segment_data_2025 text
  if 2 ≤ three_segment_data.length then three_segment_data
  else extractSegments2024Fallback text

/-- Python `EnhancedPDFExtractor.extract_segment_data_2023`: the two-category
schema with the wider 10M-300M band. -/
def extract_segment_data_2023 (text : String) : List SegmentX :=
  segPerPatterns text.data "Connected Home" 10000000 300000000 [sCH1] ++
  segPerPatterns text.data "NETGEAR for Business" 10000000 300000000 [sNFB1, sBusSeg23]

/-! ### Reconciliation & Record Builder / persistence boundary —
`EnhancedPDFExtractor.save_enhanced_data` and `process_pdf_file`
(`scripts/enhanced_pdf_extractor.py` lines 363-481).  The Supabase tables
`financial_data` and `product_line_revenue` are modelled as in-memory
lists of records; the `select ... eq ... execute` existence checks become
list scans over the same key fields, and `insert` appends.  The NETGEAR
company id returned by `get_company_id` is an opaque constant. -/

/-- The company id of the single company (symbol NTGR) the scripts
process. -/
def netgearId : String := "netgear-company-id"

/-- The provenance tag written by both extractors. -/
def officialSrc : String := "official_pdf_report"

/-- A row of the `financial_data` table as inserted by the enhanced
extractor (`revenue` is cast to int in the source). -/
structure FinRec where
  company_id : String
  period : String
  fiscal_year : Nat
  fiscal_quarter : Nat
  revenue : Int
  data_source : String
deriving DecidableEq, Repr

/-- A row of the `product_line_revenue` table as inserted by the enhanced
extractor. -/
structure SegRec where
  company_id : String
  period : String
  fiscal_year : Nat
  fiscal_quarter : Nat
  category_level : Nat
  category_name : String
  revenue : Int
  revenue_percentage : PyNum
  data_source : String
  estimation_method : String
  yoy_growth : Option PyNum
  gross_margin : Option PyNum
deriving DecidableEq, Repr

/-- The persistence state seen by the enhanced extractor. -/
structure DB where
  fin : List FinRec
  seg : List SegRec
deriving DecidableEq, Repr

/-- The empty persistence state. -/
def emptyDB : DB := ⟨[], []⟩

/-- Existence check of the financial record, keyed on
`(company_id, period, data_source)`. -/
def finExists (db : DB) (cid period src : String) : Bool :=
  db.fin.any (fun r => decide (r.company_id = cid ∧ r.period = period ∧ r.data_source = src))

/-- Existence check of a segment record, keyed on
`(company_id, period, category_name, data_source)`. -/
def segExists (db : DB) (cid period cat src : String) : Bool :=
  db.seg.any (fun r => decide (r.company_id = cid ∧ r.period = period ∧
    r.category_name = cat ∧ r.data_source = src))

/-- The `revenue_percentage` computation of `save_enhanced_data`:
`(segment.revenue / total_revenue * 100) if total_revenue > 0 else 0`. -/
def revenuePercentage (rev total : PyNum) : PyNum :=
  if PyNum.ltB (PyNum.ofInt 0) total then (rev.div total).mul (PyNum.ofInt 100)
  else PyNum.ofInt 0

/-- The segment half of `save_enhanced_data`: check-then-insert each
segment in order, counting inserts. -/
def saveSegLoop (cid : String) (pinfo : PeriodInfo) (total : PyNum) :
    List SegmentX → DB → Nat → DB × Nat
  | [], db, n => (db, n)
  | s :: ss, db, n =>
    if segExists db cid pinfo.period s.category_name officialSrc then
      saveSegLoop cid pinfo total ss db n
    else
      let r : SegRec :=
        { company_id := cid
          period := pinfo.period
          fiscal_year := pinfo.fiscal_year
          fiscal_quarter := pinfo.fiscal_quarter
          category_level := 1
          category_name := s.category_name
          revenue := s.revenue.pyInt
          revenue_percentage := revenuePercentage s.revenue total
          data_source := officialSrc
          estimation_method := "enhanced_pdf_extraction"
          yoy_growth := s.growth_rate
          gross_margin := s.gross_margin }
      saveSegLoop cid pinfo total ss { db with seg := db.seg ++ [r] } (n + 1)

/-- Python `EnhancedPDFExtractor.save_enhanced_data`: insert the financial
record unless one with the same `(company, period, source)` key exists,
then run the segment loop; returns the new state, whether the financial
record was inserted, and the number of segment records inserted. -/
def save_enhanced_data (pinfo : PeriodInfo) (total_revenue : PyNum)
    (segments : List SegmentX) (db : DB) : DB × Bool × Nat :=
  let cid := netgearId
  let finStep : DB × Bool :=
    if finExists db cid pinfo.period officialSrc then (db, false)
    else
      ({ db with fin := db.fin ++
          [{ company_id := cid
             period := pinfo.period
             fiscal_year := pinfo.fiscal_year
             fiscal_quarter := pinfo.fiscal_quarter
             revenue := total_revenue.pyInt
             data_source := officialSrc }] }, true)
  let segStep := saveSegLoop cid pinfo total_revenue segments finStep.1 0
  (segStep.1, finStep.2, segStep.2)

/-- The per-document outcome dictionary of `process_pdf_file`. -/
inductive DocOutcome where
  | failure (reason : String)
  | success (period : String) (total_revenue : PyNum) (segments_count : Nat)
      (financial_saved : Bool) (segments_saved : Nat)
deriving DecidableEq, Repr

/-- Python `EnhancedPDFExtractor.process_pdf_file`, with the PDF-to-text step
(an external collaborator) replaced by the already extracted `text`
argument.  An `Except.error` is the uncaught exception escaping from the
period resolver.  Python truthiness makes both a missing and a zero total
revenue take the `revenue_extraction_failed` exit. -/
def process_pdf_file (filename text : String) (db : DB) :
    Except Unit (DocOutcome × DB) :=
  match parse_period_from_filename filename with
  | .error e => .error e
  | .ok none => .ok (.failure "period_parse_failed", db)
  | .ok (some pinfo) =>
    if text = "" then .ok (.failure "text_extraction_failed", db)
    else
      match extract_total_revenue text with
      | none => .ok (.failure "revenue_extraction_failed", db)
      | some total =>
        if total.num = 0 then .ok (.failure "revenue_extraction_failed", db)
        else
          let segments :=
            if 2025 ≤ pinfo.fiscal_year then extract_segment_data_2025 text
            else if 2024 ≤ pinfo.fiscal_year then extract_segment_data_2024 text
            else extract_segment_data_2023 text
          let saved := save_enhanced_data pinfo total segments db
          .ok (.success pinfo.period total segments.length saved.2.1 saved.2.2, saved.1)

/-! ### The legacy extractor — `PDFFinancialDataExtractor`
(`scripts/pdf_financial_data_extractor.py`).  This is the second record
builder the specification consolidates.  Numeric conversions in this
script run without `try`, so a float `ValueError` escapes; `Except.error`
models that. -/

namespace Legacy

/-- The dictionary returned by the legacy period resolver (it has no
`is_full_year` entry). -/
structure LPeriodInfo where
  fiscal_year : Nat
  fiscal_quarter : Nat
  period : String
deriving DecidableEq, Repr

/-- Pattern `First Quarter (\d{4})` and its three siblings, each paired with the
quarter word the code recovers from the pattern text
(`pattern.split()[0]` cleaned of `(` and `\`). -/
def legacyPeriodPatterns : List (String × RE) :=
  [("First", .seq (reStr "First Quarter ") (.group 1 digits4)),
   ("Second", .seq (reStr "Second Quarter ") (.group 1 digits4)),
   ("Third", .seq (reStr "Third Quarter ") (.group 1 digits4)),
   ("Fourth", .seq (reStr "Fourth Quarter ") (.group 1 digits4))]

/-- Loop of the legacy `parse_period_from_filename`. -/
def parsePeriodLoopL (fn : List Char) : List (String × RE) → Option LPeriodInfo
  | [] => none
  | (qword, pre) :: rest =>
    match searchCL pre fn with
    | none => parsePeriodLoopL fn rest
    | some m =>
      match groupStrM fn m 1 with
      | none => parsePeriodLoopL fn rest
      | some ys =>
        let year := natOfDigits ys
        let quarter := quarterMapGet qword.data
        if 0 < quarter then
          some ⟨year, quarter, "Q" ++ toString quarter ++ "-" ++ toString year⟩
        else parsePeriodLoopL fn rest

/-- Python `PDFFinancialDataExtractor.parse_period_from_filename`. -/
def parse_period_from_filename (filename : String) : Option LPeriodInfo :=
  parsePeriodLoopL filename.data legacyPeriodPatterns

/-- Pattern `Net revenues?\s+(?:of\s+)?(?:were\s+)?[\$]?([\d,]+\.?\d*)\s*million`. -/
def l1re : RE :=
  reSeqs [reStr "Net revenue", .optG (.lit 's'), reWS,
    .optG (.seq (reStr "of") reWS), .optG (.seq (reStr "were") reWS),
    dollarOpt, numGroup, reWSstar, reStr "million"]

/-- Pattern `Net\s+revenues?\s+[\$]?([\d,]+\.?\d*)\s*million`. -/
def l3re : RE :=
  reSeqs [reStr "Net", reWS, reStr "revenue", .optG (.lit 's'), reWS,
    dollarOpt, numGroup, reWSstar, reStr "million"]

/-- The legacy total-revenue pattern list (the middle pattern coincides
with the enhanced `t2re`). -/
def revenuePatternsL : List RE := [l1re, t2re, l3re]

/-- Total-revenue loop of `extract_financial_metrics`: the first pattern
with a match determines the value (scaled by one million, no plausibility
band); a float failure is an uncaught exception. -/
def extractTotalLoopL (t : List Char) : List RE → Except Unit (Option PyNum)
  | [] => .ok none
  | p :: ps =>
    match searchCL p t with
    | none => extractTotalLoopL t ps
    | some m =>
      match valFromMatch t m with
      | none => .error ()
      | some v => .ok (some (v.mul oneMillion))

/-- The total-revenue part of `extract_financial_metrics`. -/
def extract_total_revenue (text : String) : Except Unit (Option PyNum) :=
  extractTotalLoopL text.data revenuePatternsL

/-- Pattern `[A-Z][a-z]+\s+[A-Z][a-z]+` — under `re.IGNORECASE` both classes
fold to any ASCII letter. -/
def twoWords : RE :=
  reSeqs [.cls Char.isAlpha, rePlus (.cls Char.isAlpha), reWS,
    .cls Char.isAlpha, rePlus (.cls Char.isAlpha)]

/-- Python `str.split('\n')`. -/
def splitNL : List Char → List (List Char)
  | [] => [[]]
  | c :: rest =>
    if c = '\n' then [] :: splitNL rest
    else
      match splitNL rest with
      | [] => [[c]]
      | l :: ls => (c :: l) :: ls

/-- Index of the first line whose lowercase form contains the lowercase
segment name. -/
def findLineIdx (needle : List Char) : List (List Char) → Nat → Option Nat
  | [], _ => none
  | l :: ls, i =>
    if containsSub needle (toLowerL l) then some i
    else findLineIdx needle ls (i + 1)

/-- Pattern `' '.join(lines)`. -/
def joinSpace : List (List Char) → List Char
  | [] => []
  | [l] => l
  | l :: ls => l ++ ' ' :: joinSpace ls

/-- Python `PDFFinancialDataExtractor.extract_segment_context`: match
`{escaped name}.*?(?=(?:[A-Z][a-z]+\s+[A-Z][a-z]+)|(?:\n\n)|$)` and return
the whole match; otherwise fall back to the three lines around the first
line mentioning the segment name, joined by spaces, or the empty string. -/
def extract_segment_context (text : String) (segment_name : String) : String :=
  let t := text.data
  let pat := reSeqs [reStr segment_name, lazyAnyD,
    .look (reAlts [twoWords, reStr "\n\n", .eol])]
  match searchCL pat t with
  | some m => ⟨sliceL t m.s m.e⟩
  | none =>
    let lines := splitNL t
    match findLineIdx (toLowerL segment_name.data) lines 0 with
    | none => ""
    | some i =>
      let ctx := (lines.drop (i - 3)).take (min lines.length (i + 4) - (i - 3))
      if ctx.isEmpty then "" else ⟨joinSpace ctx⟩

/-- Pattern `(?:increased|decreased|grew|declined)\s+(?:by\s+)?([\d,]+\.?\d*)%`. -/
def lg1 : RE :=
  reSeqs [reAlts [reStr "increased", reStr "decreased", reStr "grew", reStr "declined"],
    reWS, .optG (.seq (reStr "by") reWS), numGroup, .lit '%']

/-- Pattern `([\d,]+\.?\d*)%\s+(?:increase|decrease|growth|decline)`. -/
def lg2 : RE :=
  reSeqs [numGroup, .lit '%', reWS,
    reAlts [reStr "increase", reStr "decrease", reStr "growth", reStr "decline"]]

/-- Pattern `(?:\+|\-)([\d,]+\.?\d*)%`. -/
def lg3 : RE := reSeqs [.alt (.lit '+') (.lit '-'), numGroup, .lit '%']

/-- Number of occurrences of a character, `str.count(c)`. -/
def countCh (c : Char) (cs : List Char) : Nat := (cs.filter (fun x => x = c)).length

/-- The legacy polarity rule: keyword `decreased`/`declined`, or more
minus signs than plus signs in the context. -/
def legacyNeg (ctx : List Char) : Bool :=
  containsSub "decreased".data (toLowerL ctx) ||
  containsSub "declined".data (toLowerL ctx) ||
  decide (countCh '+' ctx < countCh '-' ctx)

/-- Loop of `PDFFinancialDataExtractor.extract_segment_growth`: first
pattern with a match wins, the value is sign-adjusted and returned with
no plausibility band; a float failure escapes. -/
def extractSegGrowthLoop (ctx : List Char) : List RE → Except Unit (Option PyNum)
  | [] => .ok none
  | p :: ps =>
    match searchCL p ctx with
    | none => extractSegGrowthLoop ctx ps
    | some m =>
      match valFromMatch ctx m with
      | none => .error ()
      | some v => .ok (some (if legacyNeg ctx then v.neg else v))

/-- Python `PDFFinancialDataExtractor.extract_segment_growth` (the
`segment_name` argument is unused in the source). -/
def extract_segment_growth (segment_text : String) : Except Unit (Option PyNum) :=
  extractSegGrowthLoop segment_text.data [lg1, lg2, lg3]

/-- Pattern `gross margin.*?([\d,]+\.?\d*)%`. -/
def lm1 : RE := reSeqs [reStr "gross margin", lazyAnyN, numGroup, .lit '%']

/-- Pattern `margin.*?([\d,]+\.?\d*)%`. -/
def lm2 : RE := reSeqs [reStr "margin", lazyAnyN, numGroup, .lit '%']

/-- Pattern `([\d,]+\.?\d*)%.*?margin`. -/
def lm3 : RE := reSeqs [numGroup, .lit '%', lazyAnyN, reStr "margin"]

/-- Loop of `PDFFinancialDataExtractor.extract_segment_margin`: first
pattern with a match wins, no plausibility band, float failures escape. -/
def extractSegMarginLoop (ctx : List Char) : List RE → Except Unit (Option PyNum)
  | [] => .ok none
  | p :: ps =>
    match searchCL p ctx with
    | none => extractSegMarginLoop ctx ps
    | some m =>
      match valFromMatch ctx m with
      | none => .error ()
      | some v => .ok (some v)

/-- Python `PDFFinancialDataExtractor.extract_segment_margin`. -/
def extract_segment_margin (segment_text : String) : Except Unit (Option PyNum) :=
  extractSegMarginLoop segment_text.data [lm1, lm2, lm3]

/-- Pattern `.*?[\$]?([\d,]+\.?\d*)\s*million` — the tail of the legacy segment
patterns (no `revenues?` token). -/
def lSegTail : RE := reSeqs [lazyAnyD, dollarOpt, numGroup, reWSstar, reStr "million"]

/-- The 2025 three-category legacy pattern table. -/
def lSegPatterns2025 : List (String × List RE) :=
  [("NETGEAR for Business",
     [.seq (reStr "NETGEAR for Business") lSegTail, .seq (reStr "NFB") lSegTail]),
   ("Home Networking",
     [.seq (reStr "Home Networking") lSegTail, .seq (reStr "Home") lSegTail]),
   ("Mobile", [.seq (reStr "Mobile") lSegTail])]

/-- The 2023-2024 two-category legacy pattern table. -/
def lSegPatternsOld : List (String × List RE) :=
  [("Connected Home", [.seq (reStr "Connected Home") lSegTail]),
   ("NETGEAR for Business",
     [.seq (reStr "NETGEAR for Business") lSegTail, .seq (reStr "NFB") lSegTail])]

/-- First pattern of a category with a `re.search` hit (the legacy code
breaks out of the pattern loop after processing one match). -/
def firstHit (t : List Char) : List RE → Option MatchRes
  | [] => none
  | p :: ps =>
    match searchCL p t with
    | some m => some m
    | none => firstHit t ps

/-- Loop of `PDFFinancialDataExtractor.extract_business_segments`: one
segment per category whose first matching pattern parses; revenue scaled
by one million with no plausibility band; growth and margin mined from
`extract_segment_context`. -/
def segLoopL (text : String) : List (String × List RE) → Except Unit (List SegmentX)
  | [] => .ok []
  | (name, pats) :: rest =>
    match firstHit text.data pats with
    | none => segLoopL text rest
    | some m =>
      match valFromMatch text.data m with
      | none => .error ()
      | some v =>
        let revenue := v.mul oneMillion
        let ctx := extract_segment_context text name
        match extract_segment_growth ctx with
        | .error e => .error e
        | .ok growth =>
          match extract_segment_margin ctx with
          | .error e => .error e
          | .ok margin =>
            match segLoopL text rest with
            | .error e => .error e
            | .ok tail => .ok (⟨name, revenue, growth, margin⟩ :: tail)

/-- Python `PDFFinancialDataExtractor.extract_business_segments`. -/
def extract_business_segments (text : String) (fiscal_year : Nat) :
    Except Unit (List SegmentX) :=
  segLoopL text (if 2025 ≤ fiscal_year then lSegPatterns2025 else lSegPatternsOld)

/-- Pattern `compared to.*?same period.*?year.*?([\+\-]?[\d,]+\.?\d*)%`. -/
def ly1 : RE :=
  reSeqs [reStr "compared to", lazyAnyN, reStr "same period", lazyAnyN,
    reStr "year", lazyAnyN, signedNumGroup, .lit '%']

/-- Pattern `year-over-year.*?([\+\-]?[\d,]+\.?\d*)%`. -/
def ly2 : RE := reSeqs [reStr "year-over-year", lazyAnyN, signedNumGroup, .lit '%']

/-- Pattern `compared to.*?prior year.*?([\+\-]?[\d,]+\.?\d*)%`. -/
def ly3 : RE :=
  reSeqs [reStr "compared to", lazyAnyN, reStr "prior year", lazyAnyN,
    signedNumGroup, .lit '%']

/-- Loop of `PDFFinancialDataExtractor.extract_growth_rates`: the first
matching year-over-year pattern fills the `yoy` entry. -/
def extractYoyLoop (t : List Char) : List RE → Except Unit (Option PyNum)
  | [] => .ok none
  | p :: ps =>
    match searchCL p t with
    | none => extractYoyLoop t ps
    | some m =>
      match groupStrM t m 1 with
      | none => .error ()
      | some s =>
        match parseDecimalSigned (stripCommas s) with
        | none => .error ()
        | some v => .ok (some v)

/-- Python `PDFFinancialDataExtractor.extract_growth_rates`. -/
def extract_growth_rates (text : String) : Except Unit (Option PyNum) :=
  extractYoyLoop text.data [ly1, ly2, ly3]

/-- Pattern `overall.*?margin.*?([\d,]+\.?\d*)%`. -/
def lOverallMargin : RE :=
  reSeqs [reStr "overall", lazyAnyN, reStr "margin", lazyAnyN, numGroup, .lit '%']

/-- Python `PDFFinancialDataExtractor.extract_margins`: the first matching
pattern fills the `gross_margin` entry. -/
def extract_margins (text : String) : Except Unit (Option PyNum) :=
  extractSegMarginLoop text.data [lm1, lOverallMargin]

/-- The metrics dictionary of `extract_financial_metrics`. -/
structure LMetrics where
  total_revenue : Option PyNum
  segments : List SegmentX
  yoy : Option PyNum
  gross_margin : Option PyNum
deriving DecidableEq, Repr

/-- Python `PDFFinancialDataExtractor.extract_financial_metrics`. -/
def extract_financial_metrics (text : String) (pinfo : LPeriodInfo) :
    Except Unit LMetrics :=
  match extract_total_revenue text with
  | .error e => .error e
  | .ok total =>
    match extract_business_segments text pinfo.fiscal_year with
    | .error e => .error e
    | .ok segments =>
      match extract_growth_rates text with
      | .error e => .error e
      | .ok yoy =>
        match extract_margins text with
        | .error e => .error e
        | .ok margins => .ok ⟨total, segments, yoy, margins⟩

/-- A `financial_data` row as inserted by the legacy extractor: the
revenue is stored as extracted (possibly missing, never cast to int). -/
structure LFinRec where
  company_id : String
  period : String
  fiscal_year : Nat
  fiscal_quarter : Nat
  revenue : Option PyNum
  data_source : String
deriving DecidableEq, Repr

/-- A `product_line_revenue` row as inserted by the legacy extractor. -/
structure LSegRec where
  company_id : String
  period : String
  fiscal_year : Nat
  fiscal_quarter : Nat
  category_level : Nat
  category_name : String
  revenue : PyNum
  revenue_percentage : PyNum
  gross_margin : Option PyNum
  data_source : String
  estimation_method : String
  yoy_growth : Option PyNum
deriving DecidableEq, Repr

/-- The persistence state seen by the legacy extractor. -/
structure LDB where
  fin : List LFinRec
  seg : List LSegRec
deriving DecidableEq, Repr

/-- The empty legacy persistence state. -/
def emptyLDB : LDB := ⟨[], []⟩

/-- The legacy financial existence check, keyed on `(company_id, period)`
only. -/
def lFinExists (db : LDB) (cid period : String) : Bool :=
  db.fin.any (fun r => decide (r.company_id = cid ∧ r.period = period))

/-- The legacy segment existence check, keyed on
`(company_id, period, category_name)` — note: no `data_source`. -/
def lSegExists (db : LDB) (cid period cat : String) : Bool :=
  db.seg.any (fun r => decide (r.company_id = cid ∧ r.period = period ∧
    r.category_name = cat))

/-- Python `PDFFinancialDataExtractor.save_financial_data`: skip (returning
`True`) when a record for `(company, period)` exists, else insert. -/
def save_financial_data (pinfo : LPeriodInfo) (metrics : LMetrics) (db : LDB) :
    LDB × Bool :=
  let cid := netgearId
  if lFinExists db cid pinfo.period then (db, true)
  else
    ({ db with fin := db.fin ++
        [{ company_id := cid
           period := pinfo.period
           fiscal_year := pinfo.fiscal_year
           fiscal_quarter := pinfo.fiscal_quarter
           revenue := metrics.total_revenue
           data_source := officialSrc }] }, true)

/-- Python `sum(s['revenue'] for s in segments)`. -/
def sumRevenues (segments : List SegmentX) : PyNum :=
  segments.foldl (fun a s => a.add s.revenue) (PyNum.ofInt 0)

/-- Loop of `PDFFinancialDataExtractor.save_segment_data`: the
percentage denominator is the sum of the extracted segment revenues, not
the document total. -/
def saveSegLoopL (cid : String) (pinfo : LPeriodInfo) (segments : List SegmentX) :
    List SegmentX → LDB → Nat → LDB × Nat
  | [], db, n => (db, n)
  | s :: ss, db, n =>
    if lSegExists db cid pinfo.period s.category_name then
      saveSegLoopL cid pinfo segments ss db n
    else
      let total := sumRevenues segments
      let pct :=
        if PyNum.ltB (PyNum.ofInt 0) total then (s.revenue.div total).mul (PyNum.ofInt 100)
        else PyNum.ofInt 0
      let r : LSegRec :=
        { company_id := cid
          period := pinfo.period
          fiscal_year := pinfo.fiscal_year
          fiscal_quarter := pinfo.fiscal_quarter
          category_level := 1
          category_name := s.category_name
          revenue := s.revenue
          revenue_percentage := pct
          gross_margin := s.gross_margin
          data_source := officialSrc
          estimation_method := "pdf_text_extraction"
          yoy_growth := s.growth_rate }
      saveSegLoopL cid pinfo segments ss { db with seg := db.seg ++ [r] } (n + 1)

/-- Python `PDFFinancialDataExtractor.save_segment_data`. -/
def save_segment_data (pinfo : LPeriodInfo) (segments : List SegmentX) (db : LDB) :
    LDB × Nat :=
  saveSegLoopL netgearId pinfo segments segments db 0

/-- The per-document outcome of the legacy `process_pdf_file`. -/
inductive LOutcome where
  | failure (reason : String)
  | success (period : String) (total_revenue : Option PyNum) (segments_count : Nat)
      (financial_saved : Bool) (segments_saved : Nat)
deriving DecidableEq, Repr

/-- Python `PDFFinancialDataExtractor.process_pdf_file`, with the PDF-to-text
step replaced by the `text` argument. -/
def process_pdf_file (filename text : String) (db : LDB) :
    Except Unit (LOutcome × LDB) :=
  match parse_period_from_filename filename with
  | none => .ok (.failure "period_parse_failed", db)
  | some pinfo =>
    if text = "" then .ok (.failure "text_extraction_failed", db)
    else
      match extract_financial_metrics text pinfo with
      | .error e => .error e
      | .ok metrics =>
        let finStep := save_financial_data pinfo metrics db
        let segStep := save_segment_data pinfo metrics.segments finStep.1
        .ok (.success pinfo.period metrics.total_revenue metrics.segments.length
          finStep.2 segStep.2, segStep.1)

end Legacy

/-- Concrete documents and states used to instantiate the theorems
below. -/
def c1FileName : String := "NETGEAR Reports First Quarter 2024 Results.pdf"

/-- Document text for which the legacy pipeline extracts total revenue
150.4M but segments summing to 150M. -/
def c1Text : String :=
  "Net revenues were $150.4 million. Connected Home revenues of $100.0 million. NETGEAR for Business revenues of $50.0 million."

/-- A persistence state holding one estimated-source segment record for
Q1-2024 / Connected Home. -/
def c4PriorDB : Legacy.LDB :=
  ⟨[], [{ company_id := netgearId
          period := "Q1-2024"
          fiscal_year := 2024
          fiscal_quarter := 1
          category_level := 1
          category_name := "Connected Home"
          revenue := ⟨100000000, 1⟩
          revenue_percentage := ⟨50, 1⟩
          gross_margin := none
          data_source := "estimated_calculation"
          estimation_method := "manual"
          yoy_growth := none }]⟩

/-! ## Theorems -/

namespace PyNum

theorem den_pos_ofInt (n : Int) : 0 < (ofInt n).den := Nat.one_pos

theorem leB_iff (a b : PyNum) (ha : 0 < a.den) (hb : 0 < b.den) :
    leB a b = true ↔ a.toRat ≤ b.toRat := by
  have ha' : (0 : ℚ) < (a.den : ℚ) := by exact_mod_cast ha
  have hb' : (0 : ℚ) < (b.den : ℚ) := by exact_mod_cast hb
  unfold leB toRat
  rw [decide_eq_true_iff, div_le_div_iff₀ ha' hb']
  constructor
  · intro h
    calc ((a.num : ℚ) * (b.den : ℚ)) = ((a.num * b.den : ℤ) : ℚ) := by push_cast; ring
    _ ≤ ((b.num * a.den : ℤ) : ℚ) := by exact_mod_cast h
    _ = (b.num : ℚ) * (a.den : ℚ) := by push_cast; ring
  · intro h
    have h' : ((a.num * b.den : ℤ) : ℚ) ≤ ((b.num * a.den : ℤ) : ℚ) := by
      push_cast
      linarith
    exact_mod_cast h'

theorem ltB_iff (a b : PyNum) (ha : 0 < a.den) (hb : 0 < b.den) :
    ltB a b = true ↔ a.toRat < b.toRat := by
  have ha' : (0 : ℚ) < (a.den : ℚ) := by exact_mod_cast ha
  have hb' : (0 : ℚ) < (b.den : ℚ) := by exact_mod_cast hb
  unfold ltB toRat
  rw [decide_eq_true_iff, div_lt_div_iff₀ ha' hb']
  constructor
  · intro h
    have h' : ((a.num * b.den : ℤ) : ℚ) < ((b.num * a.den : ℤ) : ℚ) := by exact_mod_cast h
    calc ((a.num : ℚ) * (b.den : ℚ)) = ((a.num * b.den : ℤ) : ℚ) := by push_cast; ring
    _ < ((b.num * a.den : ℤ) : ℚ) := h'
    _ = (b.num : ℚ) * (a.den : ℚ) := by push_cast; ring
  · intro h
    have h' : ((a.num * b.den : ℤ) : ℚ) < ((b.num * a.den : ℤ) : ℚ) := by
      push_cast
      linarith
    exact_mod_cast h'

theorem toRat_neg (a : PyNum) : a.neg.toRat = -a.toRat := by
  unfold neg toRat
  push_cast
  ring

theorem den_neg (a : PyNum) : a.neg.den = a.den := rfl

end PyNum

/-- Values produced by the float parser have positive (power-of-ten)
denominators. -/
theorem parseDecimal_den_pos (cs : List Char) (v : PyNum)
    (h : parseDecimal cs = some v) : 0 < v.den := by
  unfold parseDecimal at h
  by_cases hc : ((cs.takeWhile (fun c => c != '.')).all Char.isDigit &&
      (match cs.dropWhile (fun c => c != '.') with
        | [] => ([] : List Char)
        | _ :: xs => xs).all Char.isDigit &&
      (!(cs.takeWhile (fun c => c != '.')).isEmpty ||
        !(match cs.dropWhile (fun c => c != '.') with
          | [] => ([] : List Char)
          | _ :: xs => xs).isEmpty)) = true
  · simp only [hc, if_true] at h
    cases h
    exact Nat.pos_pow_of_pos _ (by norm_num)
  · simp only [hc, if_false] at h
    cases h

/-- Values read from a match group have positive denominators. -/
theorem valFromMatch_den_pos (t : List Char) (m : MatchRes) (v : PyNum)
    (h : valFromMatch t m = some v) : 0 < v.den := by
  unfold valFromMatch at h
  cases hg : groupStrM t m 1 with
  | none => rw [hg] at h; cases h
  | some s => rw [hg] at h; exact parseDecimal_den_pos _ _ h

/-- Sign resolution does not change the denominator. -/
theorem applyGrowthSign_den (ctx : List Char) (m : MatchRes) (v : PyNum) :
    (applyGrowthSign ctx m v).den = v.den := by
  unfold applyGrowthSign
  split
  · rfl
  · split <;> rfl

/-- The enhanced percentage formula, read as a rational: whenever the
total is positive, it is revenue divided by the total, times 100. -/
theorem revenuePercentage_toRat (rev total : PyNum) (hrd : 0 < rev.den)
    (htd : 0 < total.den) (ht : 0 < total.toRat) :
    (revenuePercentage rev total).toRat = rev.toRat / total.toRat * 100 := by
  have hden : (0 : ℚ) < (total.den : ℚ) := by exact_mod_cast htd
  have hnum : 0 < total.num := by
    by_contra hn
    push_neg at hn
    have hnQ : ((total.num : ℤ) : ℚ) ≤ 0 := by exact_mod_cast hn
    have : total.toRat ≤ 0 := div_nonpos_of_nonpos_of_nonneg hnQ (le_of_lt hden)
    linarith
  have hltB : PyNum.ltB (PyNum.ofInt 0) total = true := by
    unfold PyNum.ltB PyNum.ofInt
    rw [decide_eq_true_iff]
    simpa using hnum
  have hna : ((total.num.natAbs : ℕ) : ℤ) = total.num :=
    Int.natAbs_of_nonneg (le_of_lt hnum)
  have hnaQ : ((total.num.natAbs : ℕ) : ℚ) = ((total.num : ℤ) : ℚ) := by
    have habs : |total.num| = total.num := abs_of_pos hnum
    rw [Int.cast_natAbs]
    exact_mod_cast habs
  have hrd' : ((rev.den : ℕ) : ℚ) ≠ 0 := by positivity
  have htd' : ((total.den : ℕ) : ℚ) ≠ 0 := ne_of_gt hden
  have hnum' : ((total.num : ℤ) : ℚ) ≠ 0 := by
    have : (0 : ℚ) < ((total.num : ℤ) : ℚ) := by exact_mod_cast hnum
    exact ne_of_gt this
  unfold revenuePercentage
  simp only [hltB, if_true]
  unfold PyNum.div
  rw [if_neg (by omega)]
  unfold PyNum.mul PyNum.ofInt PyNum.toRat
  push_cast
  rw [hnaQ]
  field_simp

/-- Every segment record present after `saveSegLoop` was either already
present or was built from one of the input segments, with its percentage
computed by `revenuePercentage` against the run's total. -/
theorem saveSegLoop_mem (cid : String) (pinfo : PeriodInfo) (T : PyNum)
    (segs : List SegmentX) :
    ∀ (db : DB) (n : Nat) (r : SegRec),
      r ∈ (saveSegLoop cid pinfo T segs db n).1.seg →
      r ∈ db.seg ∨ ∃ s ∈ segs, r.category_name = s.category_name ∧
        r.revenue_percentage = revenuePercentage s.revenue T := by
  induction segs with
  | nil =>
    intro db n r h
    exact Or.inl h
  | cons s ss ih =>
    intro db n r h
    rw [saveSegLoop] at h
    split at h
    · rcases ih db n r h with h' | ⟨s', hs', h1, h2⟩
      · exact Or.inl h'
      · exact Or.inr ⟨s', List.mem_cons_of_mem _ hs', h1, h2⟩
    · rcases ih _ _ r h with h' | ⟨s', hs', h1, h2⟩
      · rcases List.mem_append.mp h' with h'' | h''
        · exact Or.inl h''
        · have hr : r = _ := List.mem_singleton.mp h''
          refine Or.inr ⟨s, List.mem_cons_self s ss, ?_, ?_⟩
          · rw [hr]
          · rw [hr]
      · exact Or.inr ⟨s', List.mem_cons_of_mem _ hs', h1, h2⟩

/-- Claim C1 (amended): every segment record inserted by the enhanced
Reconciliation and Record Builder for a run with positive extracted total
revenue T carries revenue_percentage = segment.revenue / T * 100,
computed against the document total, not the segment sum.  (The legacy
builder instead divides by the sum of the extracted segment revenues; see
the counterexample.) -/
theorem c1_record_percentage_from_document_total (pinfo : PeriodInfo)
    (T : PyNum) (segs : List SegmentX) (db : DB) (r : SegRec)
    (hTd : 0 < T.den) (hT : 0 < T.toRat)
    (hsegs : ∀ s ∈ segs, 0 < s.revenue.den)
    (hr : r ∈ (save_enhanced_data pinfo T segs db).1.seg) (hnew : r ∉ db.seg) :
    ∃ s ∈ segs, r.category_name = s.category_name ∧
      r.revenue_percentage.toRat = s.revenue.toRat / T.toRat * 100 := by
  unfold save_enhanced_data at hr
  simp only [] at hr
  split at hr
  · rcases saveSegLoop_mem netgearId pinfo T segs db 0 r hr with h' | ⟨s, hs, h1, h2⟩
    · exact absurd h' hnew
    · exact ⟨s, hs, h1, by rw [h2]; exact revenuePercentage_toRat _ _ (hsegs s hs) hTd hT⟩
  · rcases saveSegLoop_mem netgearId pinfo T segs _ 0 r hr with h' | ⟨s, hs, h1, h2⟩
    · exact absurd h' hnew
    · exact ⟨s, hs, h1, by rw [h2]; exact revenuePercentage_toRat _ _ (hsegs s hs) hTd hT⟩

/-- Witness for C1: a concrete run of the enhanced builder.  The Mobile
record inserted for a 20M segment under a 162.1M total carries
percentage 20M / 162.1M * 100. -/
theorem c1_record_percentage_witness :
    ∃ s ∈ [({ category_name := "Mobile", revenue := ⟨200000000, 10⟩,
              growth_rate := none, gross_margin := none } : SegmentX)],
      ({ company_id := netgearId
         period := "Q1-2025"
         fiscal_year := 2025
         fiscal_quarter := 1
         category_level := 1
         category_name := "Mobile"
         revenue := 20000000
         revenue_percentage := ⟨200000000000, 16210000000⟩
         data_source := officialSrc
         estimation_method := "enhanced_pdf_extraction"
         yoy_growth := none
         gross_margin := none } : SegRec).category_name = s.category_name ∧
      (PyNum.toRat ⟨200000000000, 16210000000⟩) =
        s.revenue.toRat / PyNum.toRat ⟨1621000000, 10⟩ * 100 :=
  c1_record_percentage_from_document_total ⟨2025, 1, "Q1-2025", false⟩
    ⟨1621000000, 10⟩ _ emptyDB _ (by norm_num)
    (by norm_num [PyNum.toRat])
    (by intro s hs; fin_cases hs; norm_num)
    (by decide) (by decide)

/-- Counterexample for C1 as stated: running the legacy pipeline on a
document whose extracted total revenue is 150.4M yields a Connected Home
record (revenue 100M) whose revenue_percentage is 100M divided by the
150M sum of segment revenues, which differs from 100M / 150.4M * 100. -/
theorem c1_legacy_percentage_counterexample :
    (Legacy.process_pdf_file c1FileName c1Text Legacy.emptyLDB).toOption.map
        (fun r => r.2.seg.map (fun s => (s.category_name, s.revenue_percentage))) =
      some [("Connected Home", ⟨10000000000000, 150000000000⟩),
            ("NETGEAR for Business", ⟨5000000000000, 150000000000⟩)] ∧
    Legacy.extract_total_revenue c1Text = .ok (some ⟨1504000000, 10⟩) ∧
    (0 : ℚ) < PyNum.toRat ⟨1504000000, 10⟩ ∧
    PyNum.toRat ⟨10000000000000, 150000000000⟩ ≠
      PyNum.toRat ⟨1000000000, 10⟩ / PyNum.toRat ⟨1504000000, 10⟩ * 100 := by
  refine ⟨by rfl, by rfl, by norm_num [PyNum.toRat], ?_⟩
  norm_num [PyNum.toRat]

/-- The segment loop never touches the financial table. -/
theorem saveSegLoop_fin (cid : String) (pinfo : PeriodInfo) (T : PyNum)
    (segs : List SegmentX) :
    ∀ (db : DB) (n : Nat), (saveSegLoop cid pinfo T segs db n).1.fin = db.fin := by
  induction segs with
  | nil => intro db n; rfl
  | cons s ss ih =>
    intro db n
    rw [saveSegLoop]
    split
    · exact ih db n
    · exact ih _ _

/-- The segment loop only appends: existing segment records stay. -/
theorem saveSegLoop_seg_mono (cid : String) (pinfo : PeriodInfo) (T : PyNum)
    (segs : List SegmentX) :
    ∀ (db : DB) (n : Nat) (r : SegRec), r ∈ db.seg →
      r ∈ (saveSegLoop cid pinfo T segs db n).1.seg := by
  induction segs with
  | nil => intro db n r h; exact h
  | cons s ss ih =>
    intro db n r h
    rw [saveSegLoop]
    split
    · exact ih db n r h
    · exact ih _ _ r (List.mem_append_left _ h)

/-- An existence check that already succeeds keeps succeeding after the
segment loop. -/
theorem segExists_mono (cid : String) (pinfo : PeriodInfo) (T : PyNum)
    (segs : List SegmentX) (db : DB) (n : Nat) (c p cat src : String)
    (h : segExists db c p cat src = true) :
    segExists (saveSegLoop cid pinfo T segs db n).1 c p cat src = true := by
  unfold segExists at h ⊢
  rcases List.any_eq_true.mp h with ⟨r, hr, hpred⟩
  exact List.any_eq_true.mpr ⟨r, saveSegLoop_seg_mono cid pinfo T segs db n r hr, hpred⟩

/-- After the segment loop, every input segment has a record under the
exact `(company, period, category_name, source)` key. -/
theorem saveSegLoop_covers (cid : String) (pinfo : PeriodInfo) (T : PyNum)
    (segs : List SegmentX) :
    ∀ (db : DB) (n : Nat) (s : SegmentX), s ∈ segs →
      segExists (saveSegLoop cid pinfo T segs db n).1 cid pinfo.period
        s.category_name officialSrc = true := by
  induction segs with
  | nil => intro db n s h; cases h
  | cons s0 ss ih =>
    intro db n s h
    rw [saveSegLoop]
    split
    · rcases List.mem_cons.mp h with rfl | hmem
      · next hex => exact segExists_mono cid pinfo T ss db n _ _ _ _ hex
      · exact ih db n s hmem
    · rcases List.mem_cons.mp h with rfl | hmem
      · apply segExists_mono
        unfold segExists
        refine List.any_eq_true.mpr ⟨_, List.mem_append_right _ (List.mem_singleton.mpr rfl), ?_⟩
        simp
      · exact ih _ _ s hmem

/-- When every input segment already has a record under its key, the
segment loop inserts nothing and leaves the state unchanged. -/
theorem saveSegLoop_noop (cid : String) (pinfo : PeriodInfo) (T : PyNum)
    (segs : List SegmentX) :
    ∀ (db : DB) (n : Nat),
      (∀ s ∈ segs, segExists db cid pinfo.period s.category_name officialSrc = true) →
      saveSegLoop cid pinfo T segs db n = (db, n) := by
  induction segs with
  | nil => intro db n _; rfl
  | cons s0 ss ih =>
    intro db n hall
    rw [saveSegLoop]
    rw [if_pos (hall s0 (List.mem_cons_self s0 ss))]
    exact ih db n (fun s hs => hall s (List.mem_cons_of_mem _ hs))

/-- A matching financial record in the table makes the financial
existence check succeed. -/
theorem finExists_of_mem (db : DB) (r : FinRec) (hr : r ∈ db.fin)
    (cid p src : String) (h1 : r.company_id = cid) (h2 : r.period = p)
    (h3 : r.data_source = src) : finExists db cid p src = true := by
  unfold finExists
  exact List.any_eq_true.mpr ⟨r, hr, by simp [h1, h2, h3]⟩

/-- Running `save_enhanced_data` a second time on the state its first run
produced inserts nothing: no financial record, zero segment records, and
an unchanged state. -/
theorem save_enhanced_data_idem (pinfo : PeriodInfo) (T : PyNum)
    (segs : List SegmentX) (db : DB) :
    save_enhanced_data pinfo T segs (save_enhanced_data pinfo T segs db).1 =
      ((save_enhanced_data pinfo T segs db).1, false, 0) := by
  have hfin1 : finExists (save_enhanced_data pinfo T segs db).1 netgearId
      pinfo.period officialSrc = true := by
    by_cases hex : finExists db netgearId pinfo.period officialSrc = true
    · simp only [save_enhanced_data, hex, if_true]
      unfold finExists at hex ⊢
      rw [saveSegLoop_fin]
      exact hex
    · simp only [save_enhanced_data, hex, if_false]
      unfold finExists
      rw [saveSegLoop_fin]
      refine List.any_eq_true.mpr ⟨_, List.mem_append_right _ (List.mem_singleton.mpr rfl), ?_⟩
      simp
  have hcov : ∀ s ∈ segs, segExists (save_enhanced_data pinfo T segs db).1 netgearId
      pinfo.period s.category_name officialSrc = true := by
    intro s hs
    by_cases hex : finExists db netgearId pinfo.period officialSrc = true
    · simp only [save_enhanced_data, hex, if_true]
      exact saveSegLoop_covers netgearId pinfo T segs db 0 s hs
    · simp only [save_enhanced_data, hex, if_false]
      exact saveSegLoop_covers netgearId pinfo T segs _ 0 s hs
  generalize hdb1 : (save_enhanced_data pinfo T segs db).1 = db1 at hfin1 hcov ⊢
  simp only [save_enhanced_data, hfin1, if_true]
  rw [saveSegLoop_noop netgearId pinfo T segs db1 0 hcov]

/-- Claim C4 (amended): running the enhanced pipeline a second time over
the same document text and the state the first run produced leaves the
persistence state unchanged — zero additional records are inserted.  (The
enhanced segment existence check is keyed by company, period, category
and source; the legacy one omits the source, see the counterexample.) -/
theorem c4_second_run_inserts_nothing (fn text : String) (db : DB)
    (o : DocOutcome) (db1 : DB)
    (h : process_pdf_file fn text db = .ok (o, db1)) :
    ∃ o2, process_pdf_file fn text db1 = .ok (o2, db1) := by
  unfold process_pdf_file at h ⊢
  cases hp : parse_period_from_filename fn with
  | error e => rw [hp] at h; simp at h
  | ok po =>
    rw [hp] at h
    cases po with
    | none =>
      simp only [Except.ok.injEq, Prod.mk.injEq] at h
      obtain ⟨h1, h2⟩ := h
      subst h2
      exact ⟨_, rfl⟩
    | some pinfo =>
      simp only [] at h ⊢
      by_cases ht : text = ""
      · rw [if_pos ht] at h ⊢
        simp only [Except.ok.injEq, Prod.mk.injEq] at h
        obtain ⟨h1, h2⟩ := h
        subst h2
        exact ⟨_, rfl⟩
      · rw [if_neg ht] at h ⊢
        cases htot : extract_total_revenue text with
        | none =>
          rw [htot] at h
          simp only [Except.ok.injEq, Prod.mk.injEq] at h
          obtain ⟨h1, h2⟩ := h
          subst h2
          exact ⟨_, rfl⟩
        | some total =>
          rw [htot] at h
          simp only [] at h ⊢
          by_cases hz : total.num = 0
          · rw [if_pos hz] at h ⊢
            simp only [Except.ok.injEq, Prod.mk.injEq] at h
            obtain ⟨h1, h2⟩ := h
            subst h2
            exact ⟨_, rfl⟩
          · rw [if_neg hz] at h ⊢
            simp only [Except.ok.injEq, Prod.mk.injEq] at h
            obtain ⟨h1, h2⟩ := h
            subst h2
            refine ⟨.success pinfo.period total
              (if 2025 ≤ pinfo.fiscal_year then extract_segment_data_2025 text
               else if 2024 ≤ pinfo.fiscal_year then extract_segment_data_2024 text
               else extract_segment_data_2023 text).length false 0, ?_⟩
            rw [save_enhanced_data_idem]

/-- Witness for C4: a concrete first run over an empty state, followed by
a second run over the state it produced, which leaves that state
unchanged. -/
theorem c4_second_run_witness :
    ∃ o2, process_pdf_file "NETGEAR Reports First Quarter 2025 Results.pdf"
        "Net revenues were $162.1 million. Mobile revenues of $20.0 million."
        ⟨[{ company_id := netgearId
            period := "Q1-2025"
            fiscal_year := 2025
            fiscal_quarter := 1
            revenue := 162100000
            data_source := officialSrc }],
         [{ company_id := netgearId
            period := "Q1-2025"
            fiscal_year := 2025
            fiscal_quarter := 1
            category_level := 1
            category_name := "Mobile"
            revenue := 20000000
            revenue_percentage := ⟨200000000000, 16210000000⟩
            data_source := officialSrc
            estimation_method := "enhanced_pdf_extraction"
            yoy_growth := none
            gross_margin := none }]⟩ =
      .ok (o2, ⟨[{ company_id := netgearId
                   period := "Q1-2025"
                   fiscal_year := 2025
                   fiscal_quarter := 1
                   revenue := 162100000
                   data_source := officialSrc }],
                [{ company_id := netgearId
                   period := "Q1-2025"
                   fiscal_year := 2025
                   fiscal_quarter := 1
                   category_level := 1
                   category_name := "Mobile"
                   revenue := 20000000
                   revenue_percentage := ⟨200000000000, 16210000000⟩
                   data_source := officialSrc
                   estimation_method := "enhanced_pdf_extraction"
                   yoy_growth := none
                   gross_margin := none }]⟩) :=
  c4_second_run_inserts_nothing
    "NETGEAR Reports First Quarter 2025 Results.pdf"
    "Net revenues were $162.1 million. Mobile revenues of $20.0 million."
    emptyDB
    (.success "Q1-2025" ⟨1621000000, 10⟩ 1 true 1) _ (by rfl)

/-- Counterexample for C4 as stated: the legacy builder suppresses an
insert although no record with the exact
`(company, period, category_name, source)` key exists — its existence
check ignores the source, so a prior record of a different, lower
confidence source blocks the official one. -/
theorem c4_legacy_key_counterexample :
    Legacy.save_segment_data ⟨2024, 1, "Q1-2024"⟩
        [{ category_name := "Connected Home", revenue := ⟨100000000, 1⟩,
           growth_rate := none, gross_margin := none }] c4PriorDB =
      (c4PriorDB, 0) ∧
    c4PriorDB.seg.all
      (fun r => decide (r.data_source ≠ officialSrc)) = true := by
  constructor
  · rfl
  · rfl

/-- Claim C3: for a transition-year (2024) document the new
three-category schema is attempted first; its result is kept exactly when
it has at least two segments, and otherwise the final segment set is the
legacy two-category block's result. -/
theorem c3_transition_schema_fallback (text : String) :
    (2 ≤ (extract_segment_data_2025 text).length →
      extract_segment_data_2024 text = extract_segment_data_2025 text) ∧
    ((extract_segment_data_2025 text).length < 2 →
      extract_segment_data_2024 text = extractSegments2024Fallback text) := by
  constructor
  · intro h
    unfold extract_segment_data_2024
    rw [if_pos h]
  · intro h
    unfold extract_segment_data_2024
    rw [if_neg (by omega)]

/-- Witness for C3: a document naming all three new-schema categories
yields at least three new-schema segments, and the transition-year
extractor keeps the new schema's result. -/
theorem c3_three_segment_witness :
    3 ≤ (extract_segment_data_2025
        "NFB revenues of $70.0 million. Home Networking revenues of $61.4 million. Mobile revenues of $20.0 million.").length ∧
    extract_segment_data_2024
        "NFB revenues of $70.0 million. Home Networking revenues of $61.4 million. Mobile revenues of $20.0 million." =
      extract_segment_data_2025
        "NFB revenues of $70.0 million. Home Networking revenues of $61.4 million. Mobile revenues of $20.0 million." :=
  ⟨by decide, (c3_transition_schema_fallback _).1 (by decide)⟩

/-- Claim C8: a document whose filename matches no period pattern yields
the `period_parse_failed` outcome with the persistence state untouched —
no extraction or persistence step runs for it. -/
theorem c8_unparsed_filename_skips_document (fn text : String) (db : DB)
    (h : parse_period_from_filename fn = .ok none) :
    process_pdf_file fn text db = .ok (.failure "period_parse_failed", db) := by
  unfold process_pdf_file
  rw [h]

/-- Witness for C8 on a filename with no recognizable period, over a
document text that would otherwise extract revenue. -/
theorem c8_unparsed_filename_witness :
    process_pdf_file "netgear annual overview.pdf"
        "Net revenues were $182.4 million" emptyDB =
      .ok (.failure "period_parse_failed", emptyDB) :=
  c8_unparsed_filename_skips_document "netgear annual overview.pdf"
    "Net revenues were $182.4 million" emptyDB (by rfl)

/-- Claim C2 (code bug): on a combined fourth-quarter-and-full-year
filename the enhanced resolver raises instead of returning Q4 of the
stated year.  The dedicated pattern matches, but the branch guard tests
the substring `Full Year` against the pattern source, which spells it
`Full\s+Year`, so the single-group pattern is handled by the two-group
path and `match.group(2)` raises IndexError. -/
theorem c2_full_year_filename_raises :
    parse_period_from_filename
        "NETGEAR Reports Fourth Quarter and Full Year 2024 Results.pdf" =
      .error () ∧
    containsSub "Full Year".data ps2.data = false ∧
    (searchCL p2re
      "NETGEAR Reports Fourth Quarter and Full Year 2024 Results.pdf".data).isSome =
      true :=
  ⟨by rfl, by rfl, by decide⟩

/-- Claim C6: a `decreased by 8.7%` context yields growth rate -8.7; the
decrease keyword forces the negative sign. -/
theorem c6_decrease_forces_negative_sign :
    (extract_growth_rate_from_context
        "Home Networking revenues decreased by 8.7% to $61.4 million").map
      PyNum.toRat = some (-(87 / 10) : ℚ) := by
  have h : extract_growth_rate_from_context
      "Home Networking revenues decreased by 8.7% to $61.4 million" =
      some ⟨-87, 10⟩ := by decide
  rw [h]
  simp only [Option.map_some']
  norm_num [PyNum.toRat]

/-- Counterexample for C7 as stated: a text that contains the sentence
`Net revenues were $182.4 million` but whose earlier implausible
net-revenues match (9999 million) is the one each pattern finds, so
extraction reports no total at all. -/
theorem c7_earlier_match_counterexample :
    containsSub "Net revenues were $182.4 million".data
        "Net revenues 9999 million. Net revenues were $182.4 million".data = true ∧
    extract_total_revenue
        "Net revenues 9999 million. Net revenues were $182.4 million" = none :=
  ⟨by rfl, by decide⟩

/-- Claim C7 (amended): when the phrase provides the first net-revenues
match — in particular on the text consisting of that sentence — total
revenue extraction returns exactly 182,400,000, the matched number scaled
by the million scale word and accepted by the 50M-500M band. -/
theorem c7_net_revenues_scaled_amended :
    (extract_total_revenue "Net revenues were $182.4 million").map PyNum.toRat =
      some (182400000 : ℚ) := by
  have h : extract_total_revenue "Net revenues were $182.4 million" =
      some ⟨1824000000, 10⟩ := by decide
  rw [h]
  simp only [Option.map_some']
  norm_num [PyNum.toRat]

/-- Counterexample for C9 as stated: the context window around the match
`aaa` (offsets 0-3) runs across the `\n\n` paragraph boundary into the
following, unrelated text — no boundary clipping happens. -/
theorem c9_no_boundary_clipping_counterexample :
    get_segment_context "aaa\n\nbbb" "Segment" 0 3 = "aaa\n\nbbb" ∧
    containsSub "\n\nbbb".data
      (get_segment_context "aaa\n\nbbb" "Segment" 0 3).data = true :=
  ⟨by rfl, by rfl⟩

/-- Claim C9 (amended): the context window is bounded only by the fixed
500-character budget on each side of the match, clamped to the text: it
is a contiguous piece of the document of length at most the match length
plus 1000, with no clipping at paragraph or line boundaries. -/
theorem c9_window_character_budget (t : String) (name : String) (s e : Nat)
    (hse : s ≤ e) :
    (get_segment_context t name s e).length ≤ (e - s) + 1000 ∧
    (get_segment_context t name s e).data <:+: t.data := by
  constructor
  · show (sliceL t.data (s - 500) (min t.data.length (e + 500))).length ≤ _
    unfold sliceL
    simp only [List.length_take, List.length_drop]
    omega
  · show sliceL t.data (s - 500) (min t.data.length (e + 500)) <:+: t.data
    unfold sliceL
    exact ((List.take_prefix _ _).isInfix).trans ((List.drop_suffix _ _).isInfix)

/-- Witness for C9 (amended) at a concrete text and span. -/
theorem c9_window_budget_witness :
    (get_segment_context "aaa\n\nbbb" "Segment" 0 3).length ≤ (3 - 0) + 1000 ∧
    (get_segment_context "aaa\n\nbbb" "Segment" 0 3).data <:+: "aaa\n\nbbb".data :=
  c9_window_character_budget "aaa\n\nbbb" "Segment" 0 3 (by decide)

/-- The rational value of an integer-literal fraction. -/
theorem PyNum.toRat_ofInt (n : Int) : (PyNum.ofInt n).toRat = (n : ℚ) := by
  unfold PyNum.ofInt PyNum.toRat
  norm_num

/-- If the (sign-adjusted) value of every pattern's first growth match is
outside [-50, 100], the growth loop reports nothing. -/
theorem extractGrowthLoop_none (ctx : List Char) (ps : List RE)
    (h : ∀ p ∈ ps, ∀ m, searchCL p ctx = some m →
      ∀ v, valFromMatch ctx m = some v →
      ¬((-50 : ℚ) ≤ (applyGrowthSign ctx m v).toRat ∧
        (applyGrowthSign ctx m v).toRat ≤ 100)) :
    extractGrowthLoop ctx ps = none := by
  induction ps with
  | nil => rfl
  | cons p ps ih =>
    have htail := ih (fun p' hp' => h p' (List.mem_cons_of_mem _ hp'))
    cases hs : searchCL p ctx with
    | none => simp only [extractGrowthLoop, hs]; exact htail
    | some m =>
      cases hv : valFromMatch ctx m with
      | none => simp only [extractGrowthLoop, hs, hv]; exact htail
      | some v =>
        have hden : 0 < (applyGrowthSign ctx m v).den := by
          rw [applyGrowthSign_den]
          exact valFromMatch_den_pos ctx m v hv
        cases hgr : growthInRange (applyGrowthSign ctx m v) with
        | true =>
          exfalso
          have hgr' := hgr
          unfold growthInRange at hgr'
          rw [Bool.and_eq_true] at hgr'
          rcases hgr' with ⟨hle1, hle2⟩
          have h1 := (PyNum.leB_iff _ _ (PyNum.den_pos_ofInt _) hden).mp hle1
          have h2 := (PyNum.leB_iff _ _ hden (PyNum.den_pos_ofInt _)).mp hle2
          rw [PyNum.toRat_ofInt] at h1 h2
          refine h p (List.mem_cons_self p ps) m hs v hv ⟨?_, ?_⟩
          · exact_mod_cast h1
          · exact_mod_cast h2
        | false =>
          simp only [extractGrowthLoop, hs, hv, hgr, Bool.false_eq_true, if_false]
          exact htail

/-- If the value of every pattern's first margin match is outside
[5, 60], the margin loop reports nothing. -/
theorem extractMarginLoop_none (ctx : List Char) (ps : List RE)
    (h : ∀ p ∈ ps, ∀ m, searchCL p ctx = some m →
      ∀ v, valFromMatch ctx m = some v →
      ¬((5 : ℚ) ≤ v.toRat ∧ v.toRat ≤ 60)) :
    extractMarginLoop ctx ps = none := by
  induction ps with
  | nil => rfl
  | cons p ps ih =>
    have htail := ih (fun p' hp' => h p' (List.mem_cons_of_mem _ hp'))
    cases hs : searchCL p ctx with
    | none => simp only [extractMarginLoop, hs]; exact htail
    | some m =>
      cases hv : valFromMatch ctx m with
      | none => simp only [extractMarginLoop, hs, hv]; exact htail
      | some v =>
        have hden : 0 < v.den := valFromMatch_den_pos ctx m v hv
        cases hgr : marginInRange v with
        | true =>
          exfalso
          have hgr' := hgr
          unfold marginInRange at hgr'
          rw [Bool.and_eq_true] at hgr'
          rcases hgr' with ⟨hle1, hle2⟩
          have h1 := (PyNum.leB_iff _ _ (PyNum.den_pos_ofInt _) hden).mp hle1
          have h2 := (PyNum.leB_iff _ _ hden (PyNum.den_pos_ofInt _)).mp hle2
          rw [PyNum.toRat_ofInt] at h1 h2
          refine h p (List.mem_cons_self p ps) m hs v hv ⟨?_, ?_⟩
          · exact_mod_cast h1
          · exact_mod_cast h2
        | false =>
          simp only [extractMarginLoop, hs, hv, hgr, Bool.false_eq_true, if_false]
          exact htail

/-- Claim C5: when every growth match in a context window lies outside
[-50, 100] and every margin match lies outside [5, 60], the Context
Analyzer reports both metrics as absent — never zero and never clamped
to a bound. -/
theorem c5_implausible_values_reported_absent (ctx : String)
    (hg : ∀ p ∈ growthPatterns, ∀ m, searchCL p ctx.data = some m →
      ∀ v, valFromMatch ctx.data m = some v →
      ¬((-50 : ℚ) ≤ (applyGrowthSign ctx.data m v).toRat ∧
        (applyGrowthSign ctx.data m v).toRat ≤ 100))
    (hm : ∀ p ∈ marginPatterns, ∀ m, searchCL p ctx.data = some m →
      ∀ v, valFromMatch ctx.data m = some v →
      ¬((5 : ℚ) ≤ v.toRat ∧ v.toRat ≤ 60)) :
    extract_growth_rate_from_context ctx = none ∧
    extract_margin_from_context ctx = none :=
  ⟨extractGrowthLoop_none ctx.data growthPatterns hg,
   extractMarginLoop_none ctx.data marginPatterns hm⟩

/-- Witness for C5: in this window the growth candidate is +250 and the
margin candidates are 75 and 250, all outside their plausibility bands,
and both metrics come back absent. -/
theorem c5_implausible_witness :
    extract_growth_rate_from_context
        "revenues increased by 250% and gross margin was 75%" = none ∧
    extract_margin_from_context
        "revenues increased by 250% and gross margin was 75%" = none := by
  refine c5_implausible_values_reported_absent
    "revenues increased by 250% and gross margin was 75%" ?_ ?_
  · intro p hp
    fin_cases hp
    · intro m hm' v hv'
      rw [show searchCL g1re
          "revenues increased by 250% and gross margin was 75%".data =
          some ⟨9, 26, [(1, 22, 25)]⟩ from by decide] at hm'
      cases hm'
      rw [show valFromMatch
          "revenues increased by 250% and gross margin was 75%".data
          ⟨9, 26, [(1, 22, 25)]⟩ = some ⟨250, 1⟩ from by decide] at hv'
      cases hv'
      rw [show applyGrowthSign
          "revenues increased by 250% and gross margin was 75%".data
          ⟨9, 26, [(1, 22, 25)]⟩ ⟨250, 1⟩ = ⟨250, 1⟩ from by decide]
      norm_num [PyNum.toRat]
    · intro m hm' v hv'
      rw [show searchCL g2re
          "revenues increased by 250% and gross margin was 75%".data = none
          from by decide] at hm'
      cases hm'
    · intro m hm' v hv'
      rw [show searchCL g3re
          "revenues increased by 250% and gross margin was 75%".data = none
          from by decide] at hm'
      cases hm'
    · intro m hm' v hv'
      rw [show searchCL g4re
          "revenues increased by 250% and gross margin was 75%".data = none
          from by decide] at hm'
      cases hm'
    · intro m hm' v hv'
      rw [show searchCL g5re
          "revenues increased by 250% and gross margin was 75%".data = none
          from by decide] at hm'
      cases hm'
  · intro p hp
    fin_cases hp
    · intro m hm' v hv'
      rw [show searchCL m1re
          "revenues increased by 250% and gross margin was 75%".data =
          some ⟨31, 51, [(1, 48, 50)]⟩ from by decide] at hm'
      cases hm'
      rw [show valFromMatch
          "revenues increased by 250% and gross margin was 75%".data
          ⟨31, 51, [(1, 48, 50)]⟩ = some ⟨75, 1⟩ from by decide] at hv'
      cases hv'
      norm_num [PyNum.toRat]
    · intro m hm' v hv'
      rw [show searchCL m2re
          "revenues increased by 250% and gross margin was 75%".data =
          some ⟨37, 51, [(1, 48, 50)]⟩ from by decide] at hm'
      cases hm'
      rw [show valFromMatch
          "revenues increased by 250% and gross margin was 75%".data
          ⟨37, 51, [(1, 48, 50)]⟩ = some ⟨75, 1⟩ from by decide] at hv'
      cases hv'
      norm_num [PyNum.toRat]
    · intro m hm' v hv'
      rw [show searchCL m3re
          "revenues increased by 250% and gross margin was 75%".data =
          some ⟨22, 43, [(1, 22, 25)]⟩ from by decide] at hm'
      cases hm'
      rw [show valFromMatch
          "revenues increased by 250% and gross margin was 75%".data
          ⟨22, 43, [(1, 22, 25)]⟩ = some ⟨250, 1⟩ from by decide] at hv'
      cases hv'
      norm_num [PyNum.toRat]

/-- Claim C10: a filename whose period phrasing is the compact
`Q<n> <year>` form or the `Quarter <n> <year>` form (with no earlier
ordinal-word pattern and no full-year pattern matching) resolves to
quarter n of the captured year, labelled `Qn-year`: the first part covers
the `Q<n> <year>` phrasing via the third pattern, the second covers the
`Quarter <n> <year>` phrasing via the fourth pattern, reached when the
third also finds no match. -/
theorem c10_compact_quarter_phrasing (fn : String) :
    (∀ (m : MatchRes) (q : Nat) (ys : List Char),
      searchCL p1re fn.data = none → searchCL p2re fn.data = none →
      searchCL p3re fn.data = some m →
      groupStrM fn.data m 1 = some (toString q).data →
      groupStrM fn.data m 2 = some ys → 1 ≤ q → q ≤ 4 →
      parse_period_from_filename fn =
        .ok (some ⟨natOfDigits ys, q,
          "Q" ++ toString q ++ "-" ++ toString (natOfDigits ys), false⟩)) ∧
    (∀ (m : MatchRes) (q : Nat) (ys : List Char),
      searchCL p1re fn.data = none → searchCL p2re fn.data = none →
      searchCL p3re fn.data = none → searchCL p4re fn.data = some m →
      groupStrM fn.data m 1 = some (toString q).data →
      groupStrM fn.data m 2 = some ys → 1 ≤ q → q ≤ 4 →
      parse_period_from_filename fn =
        .ok (some ⟨natOfDigits ys, q,
          "Q" ++ toString q ++ "-" ++ toString (natOfDigits ys), false⟩)) := by
  constructor
  · intro m q ys h1 h2 h3 hq hy hq1 hq4
    unfold parse_period_from_filename enhancedPeriodPatterns
    rw [parsePeriodLoop, h1]
    rw [parsePeriodLoop, h2]
    rw [parsePeriodLoop, h3]
    simp only []
    rw [hq, hy]
    interval_cases q <;> rfl
  · intro m q ys h1 h2 h3 h4 hq hy hq1 hq4
    unfold parse_period_from_filename enhancedPeriodPatterns
    rw [parsePeriodLoop, h1]
    rw [parsePeriodLoop, h2]
    rw [parsePeriodLoop, h3]
    rw [parsePeriodLoop, h4]
    simp only []
    rw [hq, hy]
    interval_cases q <;> rfl

/-- Witness for C10 at the filenames `NTGR Q3 2025 report.pdf` (third
pattern) and `NTGR Quarter 3 2025 report.pdf` (fourth pattern). -/
theorem c10_compact_quarter_witness :
    parse_period_from_filename "NTGR Q3 2025 report.pdf" =
      .ok (some ⟨2025, 3, "Q3-2025", false⟩) ∧
    parse_period_from_filename "NTGR Quarter 3 2025 report.pdf" =
      .ok (some ⟨2025, 3, "Q3-2025", false⟩) := by
  constructor
  · exact (c10_compact_quarter_phrasing "NTGR Q3 2025 report.pdf").1
      ⟨5, 12, [(2, 8, 12), (1, 6, 7)]⟩ 3 "2025".data
      (by decide) (by decide) (by decide) (by decide) (by decide)
      (by decide) (by decide)
  · exact (c10_compact_quarter_phrasing "NTGR Quarter 3 2025 report.pdf").2
      ⟨5, 19, [(2, 15, 19), (1, 13, 14)]⟩ 3 "2025".data
      (by decide) (by decide) (by decide) (by decide) (by decide)
      (by decide) (by decide) (by decide)

end NetgearMonitor

